import Mathlib

/-!
Verification of the CyberSentinel traffic monitor (Rust sources under `src/`):
a shallow embedding of the packet classifier (`monitor.rs`), the anomaly
detector (`detector.rs`), the shared statistics store (`state.rs`) and the
alert-sink finalizer (`logger.rs`), together with theorems settling the
specification's claims about them.

Machine integers are modelled as `Nat`; byte values of a frame are `Nat`s
(frames produced by the capture layer hold values `< 256`).  Time is modelled
as an abstract monotone clock in seconds (`Instant` differences become `Nat`
subtraction, which saturates exactly as `Instant::elapsed` does).
-/

namespace CyberSentinel

/-! ## state.rs -/

/-- `Stats` from `state.rs`: aggregate counters plus the alerts list. -/
structure Stats where
  total_packets : Nat
  tcp_packets : Nat
  udp_packets : Nat
  alerts : List String
deriving DecidableEq, Repr

/-- `Stats::default()` as produced by `create_shared_state`. -/
def initStats : Stats := ⟨0, 0, 0, []⟩

/-! ## monitor.rs : the packet classifier -/

/-- An IPv4 address as four octets (`std::net::Ipv4Addr`). -/
structure Ipv4Addr where
  a : Nat
  b : Nat
  c : Nat
  d : Nat
deriving DecidableEq, Repr

/-- The flow fields `start_capture` extracts from a frame and hands to
`detector::analyze_packet`. -/
structure FlowTuple where
  source_ip : Ipv4Addr
  dest_ip : Ipv4Addr
  source_port : Nat
  dest_port : Nat
  protocol : Nat
deriving DecidableEq, Repr

/-- Outcome of the per-frame classification section of `start_capture`:
a frame is skipped by a `continue` (`dropped`), crashes the thread on an
out-of-bounds slice index (`panicked`), or yields flow fields (`flow`). -/
inductive ClassifyResult where
  | dropped
  | panicked
  | flow (t : FlowTuple)
deriving DecidableEq, Repr

/-- The classification logic of the loop body of `start_capture`
(`monitor.rs` lines 19–40), reading `data` as the frame bytes.
The two `continue` guards become `dropped`.  The port reads
`data[14 + ip_header_len] .. data[17 + ip_header_len]` are performed by the
Rust code without any bounds check; an index at or past `data.len()` panics,
which is modelled by `panicked`. -/
def classify (data : List Nat) : ClassifyResult :=
  if data.length < 34 then .dropped
  else
    let ethertype := (data.getD 12 0) * 256 + data.getD 13 0
    if ethertype ≠ 0x0800 then .dropped
    else
      let source_ip : Ipv4Addr :=
        ⟨data.getD 26 0, data.getD 27 0, data.getD 28 0, data.getD 29 0⟩
      let dest_ip : Ipv4Addr :=
        ⟨data.getD 30 0, data.getD 31 0, data.getD 32 0, data.getD 33 0⟩
      let ip_header_len := (data.getD 14 0 &&& 0x0F) * 4
      let protocol := data.getD 23 0
      if 17 + ip_header_len < data.length then
        .flow ⟨source_ip, dest_ip,
          (data.getD (14 + ip_header_len) 0) * 256 + data.getD (15 + ip_header_len) 0,
          (data.getD (16 + ip_header_len) 0) * 256 + data.getD (17 + ip_header_len) 0,
          protocol⟩
      else .panicked

/-- The stats-update block of `start_capture` (`monitor.rs` lines 42–50):
bump `total_packets`, and `tcp_packets` / `udp_packets` according to the
protocol byte. -/
def record_packet (s : Stats) (protocol : Nat) : Stats :=
  let s := { s with total_packets := s.total_packets + 1 }
  if protocol = 6 then { s with tcp_packets := s.tcp_packets + 1 }
  else if protocol = 17 then { s with udp_packets := s.udp_packets + 1 }
  else s

/-! ## detector.rs : the anomaly detector -/

/-- `SUSPICIOUS_PORTS` from `detector.rs`. -/
def SUSPICIOUS_PORTS : List Nat := [23, 445, 1433, 3389, 31337]

/-- The `proto_str` match at the top of `analyze_packet`. -/
def proto_str (protocol : Nat) : String :=
  if protocol = 6 then "TCP"
  else if protocol = 17 then "UDP"
  else "Other"

/-- One value of the `IP_HITS` map: `(u32, Instant)` — a hit count and the
window-start time. -/
structure IpHitEntry where
  count : Nat
  windowStart : Nat
deriving DecidableEq, Repr

/-- The `IP_HITS` map, as an association list keyed by source IP. -/
def IpMap := List (Ipv4Addr × IpHitEntry)

instance : DecidableEq IpMap := by
  unfold IpMap
  infer_instance

/-- Lookup in the `IP_HITS` map. -/
def lookupIp : IpMap → Ipv4Addr → Option IpHitEntry
  | [], _ => none
  | (k, v) :: rest, ip => if k = ip then some v else lookupIp rest ip

/-- Insert-or-replace in the `IP_HITS` map. -/
def insertIp : IpMap → Ipv4Addr → IpHitEntry → IpMap
  | [], ip, e => [(ip, e)]
  | (k, v) :: rest, ip, e =>
      if k = ip then (ip, e) :: rest else (k, v) :: insertIp rest ip e

/-- One record passed to `logger::log_event` (an alert, before
timestamping and serialization). -/
structure LogEvent where
  source_ip : Ipv4Addr
  dest_ip : Ipv4Addr
  source_port : Nat
  dest_port : Nat
  protocol : String
  alert : String
deriving DecidableEq, Repr

/-- `detector::analyze_packet` (`detector.rs` lines 15–67).  The ambient
`IP_HITS` map and the current time are passed explicitly; the returned pair
is the updated map and the list of events given to `logger::log_event`, in
emission order.  `Instant::elapsed` becomes saturating subtraction from the
stored window start, and `Duration::from_secs(10)` is `10`. -/
def analyze_packet (hits : IpMap) (now : Nat)
    (src_ip dst_ip : Ipv4Addr) (src_port dst_port : Nat)
    (protocol : Nat) (_size : Nat) : IpMap × List LogEvent :=
  let proto := proto_str protocol
  let suspAlerts : List LogEvent :=
    if SUSPICIOUS_PORTS.contains dst_port then
      [⟨src_ip, dst_ip, src_port, dst_port, proto, "Suspicious port access"⟩]
    else []
  let entry0 := (lookupIp hits src_ip).getD ⟨0, now⟩
  let entry : IpHitEntry := ⟨entry0.count + 1, entry0.windowStart⟩
  if now - entry.windowStart > 10 then
    (insertIp hits src_ip ⟨1, now⟩, suspAlerts)
  else if entry.count > 50 then
    (insertIp hits src_ip ⟨0, now⟩,
      suspAlerts ++
        [⟨src_ip, dst_ip, src_port, dst_port, proto, "Port scan or flooding detected"⟩])
  else
    (insertIp hits src_ip entry, suspAlerts)

/-- One observed packet: the arguments `start_capture` passes to
`analyze_packet`, plus its capture time. -/
structure PacketIn where
  src : Ipv4Addr
  dst : Ipv4Addr
  sport : Nat
  dport : Nat
  proto : Nat
  size : Nat
  now : Nat
deriving DecidableEq, Repr

/-- Run `analyze_packet` over a sequence of packets, accumulating the emitted
events in order. -/
def runPackets (hits : IpMap) : List PacketIn → IpMap × List LogEvent
  | [] => (hits, [])
  | p :: rest =>
      let r := analyze_packet hits p.now p.src p.dst p.sport p.dport p.proto p.size
      let r2 := runPackets r.1 rest
      (r2.1, r.2 ++ r2.2)

/-- Number of flood alerts in an event list. -/
def floodCount (events : List LogEvent) : Nat :=
  (events.filter (fun e => e.alert = "Port scan or flooding detected")).length

/-- One iteration of the capture loop acting on the shared state: classify
the frame, and if it yields a flow, update the counters and run the detector.
`none` models the thread crashing on an out-of-bounds read. -/
def process_frame (s : Stats) (hits : IpMap) (data : List Nat) (now : Nat) :
    Option (Stats × IpMap × List LogEvent) :=
  match classify data with
  | .dropped => some (s, hits, [])
  | .panicked => none
  | .flow t =>
      let s := record_packet s t.protocol
      let r := analyze_packet hits now t.source_ip t.dest_ip
        t.source_port t.dest_port t.protocol data.length
      some (s, r.1, r.2)

/-! ## logger.rs : the alert sink finalizer -/

/-- The serialized fields of `LogEntry` in `logger.rs`. -/
structure LogEntry where
  timestamp : String
  source_ip : String
  dest_ip : String
  source_port : Nat
  dest_port : Nat
  protocol : String
  alert : String
deriving DecidableEq, Repr

/-- Rust's `str::trim`: strip leading and trailing whitespace characters. -/
def strTrim (s : String) : String :=
  ⟨((s.data.dropWhile Char.isWhitespace).reverse.dropWhile Char.isWhitespace).reverse⟩

/-- `finalize_alerts_json` (`logger.rs` lines 47–77).  The sink file is
modelled as `none` (absent) or `some lines` (its lines); JSON decoding of a
single record line — done by `serde_json`, a library outside this
repository — is an abstract `decode` parameter.  The result is the list of
records written out as the JSON array (the absent-file branch writes the
literal `[]`, i.e. the empty array).  Each line is trimmed, empty lines are
skipped, lines that fail to decode are skipped, successfully decoded records
are kept in order. -/
def finalize_alerts_json (decode : String → Option LogEntry)
    (file : Option (List String)) : List LogEntry :=
  match file with
  | none => []
  | some lines =>
      lines.filterMap (fun line =>
        let l := strTrim line
        if l = "" then none else decode l)

/-! ## Concrete test vectors used by witnesses and counterexamples -/

/-- A fixed source address for concrete evaluations. -/
def ip0 : Ipv4Addr := ⟨1, 2, 3, 4⟩

/-- A fixed destination address for concrete evaluations. -/
def ip1 : Ipv4Addr := ⟨5, 6, 7, 8⟩

/-- A 34-byte frame with IPv4 EtherType whose IHL nibble is 15
(header length 60): its transport-port range lies past the end of the
frame. -/
def badFrame : List Nat :=
  [0, 0, 0, 0, 0, 0, 0, 0, 0, 0, 0, 0, 0x08, 0x00, 0x4F, 0, 0, 0, 0,
   0, 0, 0, 0, 0, 0, 0, 0, 0, 0, 0, 0, 0, 0, 0]

/-- Build a well-formed Ethernet/IPv4 frame (IHL 5, total 38 bytes) with the
given header fields: EtherType `0x0800` at bytes 12–13, version/IHL byte
`0x45` at byte 14, protocol at byte 23, source IP at bytes 26–29, dest IP at
bytes 30–33, and the big-endian transport ports at bytes 34–37. -/
def mkFrame (src dst : Ipv4Addr) (proto shi slo dhi dlo : Nat) : List Nat :=
  [0, 0, 0, 0, 0, 0, 0, 0, 0, 0, 0, 0, 0x08, 0x00,
   0x45, 0, 0, 0, 0, 0, 0, 0, 0, proto, 0, 0,
   src.a, src.b, src.c, src.d, dst.a, dst.b, dst.c, dst.d,
   shi, slo, dhi, dlo]

/-- A fixed alert record for concrete evaluations of the finalizer. -/
def entry0 : LogEntry := ⟨"t0", "1.2.3.4", "5.6.7.8", 1, 23, "TCP", "Suspicious port access"⟩

/-- A second fixed alert record for concrete evaluations of the finalizer. -/
def entry1 : LogEntry := ⟨"t1", "1.2.3.4", "5.6.7.8", 1, 80, "UDP", "Port scan or flooding detected"⟩

/-- A concrete single-record decoder standing in for `serde_json` in
witnesses. -/
def decode0 (s : String) : Option LogEntry :=
  if s = "A" then some entry0 else if s = "B" then some entry1 else none

/-! ## Helper lemmas -/

theorem lookupIp_insertIp_self (m : IpMap) (ip : Ipv4Addr) (e : IpHitEntry) :
    lookupIp (insertIp m ip e) ip = some e := by
  induction m with
  | nil => simp [insertIp, lookupIp]
  | cons kv rest ih =>
      obtain ⟨k, v⟩ := kv
      by_cases h : k = ip <;> simp [insertIp, lookupIp, h, ih]

theorem floodCount_nil : floodCount [] = 0 := rfl

theorem floodCount_append (a b : List LogEvent) :
    floodCount (a ++ b) = floodCount a + floodCount b := by
  simp [floodCount, List.filter_append]

theorem floodCount_susp (s d : Ipv4Addr) (sp dp : Nat) (p : String) :
    floodCount [⟨s, d, sp, dp, p, "Suspicious port access"⟩] = 0 := by
  simp [floodCount]

theorem floodCount_suspAlerts (s d : Ipv4Addr) (sp dp : Nat) (p : String) (c : Bool) :
    floodCount (if c then [⟨s, d, sp, dp, p, "Suspicious port access"⟩] else []) = 0 := by
  cases c <;> simp [floodCount]

/-! ## Claim theorems -/

/-- Claim C9: a frame shorter than 34 bytes, or whose big-endian EtherType at
bytes 12–13 is not `0x0800`, is classified as `dropped`: no `FlowTuple` is
produced, no event is emitted, and the shared counters and per-IP hit map are
left unchanged. -/
theorem short_or_non_ipv4_dropped (data : List Nat)
    (h : data.length < 34 ∨ (data.getD 12 0) * 256 + data.getD 13 0 ≠ 0x0800) :
    classify data = .dropped ∧
    ∀ (s : Stats) (hits : IpMap) (now : Nat),
      process_frame s hits data now = some (s, hits, []) := by
  have hc : classify data = .dropped := by
    unfold classify
    dsimp only
    split_ifs with h1 h2 h3 <;>
      first
        | rfl
        | (rcases h with h | h
           · exact absurd h h1
           · exact absurd h h2)
  exact ⟨hc, fun s hits now => by unfold process_frame; rw [hc]⟩

/-- Witness for C9 at a concrete undersized frame and a concrete non-IPv4
frame. -/
theorem short_or_non_ipv4_dropped_witness :
    (classify [0, 1, 2] = .dropped ∧
      ∀ (s : Stats) (hits : IpMap) (now : Nat),
        process_frame s hits [0, 1, 2] now = some (s, hits, [])) ∧
    classify (List.replicate 12 0 ++ [0x86, 0xDD] ++ List.replicate 20 0) = .dropped :=
  ⟨short_or_non_ipv4_dropped [0, 1, 2] (Or.inl (by decide)),
   (short_or_non_ipv4_dropped (List.replicate 12 0 ++ [0x86, 0xDD] ++ List.replicate 20 0)
      (Or.inr (by decide))).1⟩

/-- Claim C1 (code bug): `badFrame` is 34 bytes long and carries the IPv4
EtherType, but its transport-port range `14 + header_len .. 17 + header_len`
lies past the end of the frame; the capture loop nevertheless indexes into
that range unconditionally, so it panics (out-of-bounds slice index) instead
of treating the frame as not applicable. -/
theorem unchecked_port_read_panics :
    badFrame.length = 34 ∧
    (badFrame.getD 12 0) * 256 + badFrame.getD 13 0 = 0x0800 ∧
    ¬ (17 + (badFrame.getD 14 0 &&& 0x0F) * 4 < badFrame.length) ∧
    classify badFrame = .panicked ∧
    process_frame initStats [] badFrame 0 = none := by
  refine ⟨by decide, by decide, by decide, ?_, ?_⟩
  · decide
  · decide

/-- Claim C2: when the 10-second window has elapsed and the incremented count
would exceed 50, window rollover wins: no flood alert is emitted and the
source IP's record is reset to count 1 with window start `now`. -/
theorem rollover_wins (hits : IpMap) (now : Nat) (src dst : Ipv4Addr)
    (sp dp proto sz : Nat) (e : IpHitEntry)
    (hl : lookupIp hits src = some e)
    (hw : now - e.windowStart > 10)
    (_hc : e.count + 1 > 50) :
    lookupIp (analyze_packet hits now src dst sp dp proto sz).1 src = some ⟨1, now⟩ ∧
    ∀ ev ∈ (analyze_packet hits now src dst sp dp proto sz).2,
      ev.alert ≠ "Port scan or flooding detected" := by
  unfold analyze_packet
  dsimp only
  rw [hl]
  dsimp only [Option.getD_some]
  rw [if_pos hw]
  refine ⟨lookupIp_insertIp_self _ _ _, ?_⟩
  intro ev hev
  split at hev
  · simp only [List.mem_singleton] at hev
    subst hev
    simp
  · simp at hev

/-- Witness for C2: a record at count 50 whose window started 20 seconds ago
is reset to count 1 and produces no flood alert. -/
theorem rollover_wins_witness :
    lookupIp (analyze_packet [(ip0, ⟨50, 0⟩)] 20 ip0 ip1 1 80 6 60).1 ip0 = some ⟨1, 20⟩ ∧
    ∀ ev ∈ (analyze_packet [(ip0, ⟨50, 0⟩)] 20 ip0 ip1 1 80 6 60).2,
      ev.alert ≠ "Port scan or flooding detected" :=
  rollover_wins [(ip0, ⟨50, 0⟩)] 20 ip0 ip1 1 80 6 60 ⟨50, 0⟩ rfl
    (by decide) (by decide)

/-- Counterexample to claim C4 as stated: for a record at count 50 observed
5 seconds into its window (elapsed time not exceeding 10 seconds), the
operation resets the count to 0 — it does not strictly increase. -/
theorem count_not_strictly_increasing :
    ¬ ((5 : Nat) - 0 > 10) ∧
    lookupIp [(ip0, (⟨50, 0⟩ : IpHitEntry))] ip0 = some ⟨50, 0⟩ ∧
    lookupIp (analyze_packet [(ip0, ⟨50, 0⟩)] 5 ip0 ip1 1 80 6 60).1 ip0 = some ⟨0, 5⟩ ∧
    ¬ ((0 : Nat) > 50) := by
  exact ⟨by decide, by decide, by decide, by decide⟩

/-- Claim C4 (amended): each observe operation leaves the source IP's count
at 1 when the elapsed time since its window start exceeds 10 seconds;
otherwise at 0 when the incremented count exceeds 50 (the flood reset), and
otherwise at the strictly increased previous count plus one. -/
theorem count_evolution (hits : IpMap) (now : Nat) (src dst : Ipv4Addr)
    (sp dp proto sz : Nat) :
    lookupIp (analyze_packet hits now src dst sp dp proto sz).1 src =
      some (if now - ((lookupIp hits src).getD ⟨0, now⟩).windowStart > 10 then ⟨1, now⟩
        else if ((lookupIp hits src).getD ⟨0, now⟩).count + 1 > 50 then ⟨0, now⟩
        else ⟨((lookupIp hits src).getD ⟨0, now⟩).count + 1,
              ((lookupIp hits src).getD ⟨0, now⟩).windowStart⟩) := by
  unfold analyze_packet
  dsimp only
  split_ifs with h1 h2 <;> exact lookupIp_insertIp_self _ _ _

/-- Claim C5: a packet to a suspicious destination port always yields a
"Suspicious port access" event regardless of the per-IP burst state; the
resulting hit map does not depend on the destination port (Rule A never
touches it); and at a concrete input both the suspicious-port rule and the
flood rule fire on the same packet. -/
theorem suspicious_port_rule (hits : IpMap) (now : Nat) (src dst : Ipv4Addr)
    (sp dp dp₂ proto sz : Nat)
    (h : SUSPICIOUS_PORTS.contains dp = true) :
    (⟨src, dst, sp, dp, proto_str proto, "Suspicious port access"⟩ : LogEvent) ∈
      (analyze_packet hits now src dst sp dp proto sz).2 ∧
    (analyze_packet hits now src dst sp dp proto sz).1 =
      (analyze_packet hits now src dst sp dp₂ proto sz).1 ∧
    floodCount (analyze_packet [(ip0, ⟨50, 0⟩)] 0 ip0 ip1 1 23 6 60).2 = 1 ∧
    (⟨ip0, ip1, 1, 23, "TCP", "Suspicious port access"⟩ : LogEvent) ∈
      (analyze_packet [(ip0, ⟨50, 0⟩)] 0 ip0 ip1 1 23 6 60).2 := by
  refine ⟨?_, ?_, by decide, by decide⟩
  · unfold analyze_packet
    dsimp only
    rw [h]
    split_ifs <;> simp_all
  · unfold analyze_packet
    dsimp only
    split_ifs <;> rfl

/-- Witness for C5 at destination port 23 against an empty hit map. -/
theorem suspicious_port_rule_witness :
    (⟨ip0, ip1, 9, 23, proto_str 6, "Suspicious port access"⟩ : LogEvent) ∈
      (analyze_packet [] 0 ip0 ip1 9 23 6 60).2 ∧
    (analyze_packet [] 0 ip0 ip1 9 23 6 60).1 =
      (analyze_packet [] 0 ip0 ip1 9 9999 6 60).1 ∧
    floodCount (analyze_packet [(ip0, ⟨50, 0⟩)] 0 ip0 ip1 1 23 6 60).2 = 1 ∧
    (⟨ip0, ip1, 1, 23, "TCP", "Suspicious port access"⟩ : LogEvent) ∈
      (analyze_packet [(ip0, ⟨50, 0⟩)] 0 ip0 ip1 1 23 6 60).2 :=
  suspicious_port_rule [] 0 ip0 ip1 9 23 9999 6 60 (by decide)

theorem record_packet_fields (s : Stats) (q : Nat) :
    (record_packet s q).total_packets = s.total_packets + 1 ∧
    (record_packet s q).tcp_packets + (record_packet s q).udp_packets =
      s.tcp_packets + s.udp_packets + (if q = 6 ∨ q = 17 then 1 else 0) ∧
    (record_packet s q).alerts = s.alerts ∧
    s.tcp_packets ≤ (record_packet s q).tcp_packets ∧
    s.udp_packets ≤ (record_packet s q).udp_packets := by
  unfold record_packet
  dsimp only
  split_ifs with h1 h2 <;> simp_all <;> omega

theorem foldl_record_stats (ps : List Nat) : ∀ (s0 : Stats),
    (ps.foldl record_packet s0).total_packets = s0.total_packets + ps.length ∧
    (ps.foldl record_packet s0).tcp_packets + (ps.foldl record_packet s0).udp_packets =
      s0.tcp_packets + s0.udp_packets + ps.countP (fun p => decide (p = 6 ∨ p = 17)) ∧
    (ps.foldl record_packet s0).alerts = s0.alerts := by
  induction ps with
  | nil => intro s0; simp
  | cons q rest ih =>
      intro s0
      have hr := record_packet_fields s0 q
      have hi := ih (record_packet s0 q)
      simp only [List.foldl_cons, List.countP_cons, List.length_cons]
      refine ⟨?_, ?_, ?_⟩
      · rw [hi.1, hr.1]; omega
      · rw [hi.2.1, hr.2.1]
        simp only [decide_eq_true_eq]
        omega
      · rw [hi.2.2, hr.2.2.1]

/-- Claim C6: the alerts list of the shared `Stats` store is never appended
to — each successful capture-loop iteration preserves it, the counter update
`record_packet` preserves it, and therefore every snapshot of a run started
from the default state observes an empty alerts list. -/
theorem alerts_list_never_appended (ps : List Nat) (s : Stats) (hits : IpMap)
    (data : List Nat) (now : Nat) (r : Stats × IpMap × List LogEvent)
    (h : process_frame s hits data now = some r) :
    r.1.alerts = s.alerts ∧
    (∀ (t : Stats) (q : Nat), (record_packet t q).alerts = t.alerts) ∧
    (ps.foldl record_packet initStats).alerts = [] := by
  refine ⟨?_, fun t q => (record_packet_fields t q).2.2.1, ?_⟩
  · unfold process_frame at h
    split at h
    · cases h; rfl
    · cases h
    · cases h
      exact (record_packet_fields s _).2.2.1
  · rw [(foldl_record_stats ps initStats).2.2]; rfl

/-- Witness for C6 at the empty frame (dropped) and the empty run. -/
theorem alerts_list_never_appended_witness :
    ((initStats, ([] : IpMap), ([] : List LogEvent)).1.alerts = initStats.alerts) ∧
    (∀ (t : Stats) (q : Nat), (record_packet t q).alerts = t.alerts) ∧
    (([] : List Nat).foldl record_packet initStats).alerts = [] :=
  alerts_list_never_appended [] initStats [] [] 0 (initStats, [], []) rfl

/-- Claim C7: after processing a run of classified packets from the default
state, `total_packets` equals the number of packets, `tcp_packets +
udp_packets` never exceeds `total_packets` with equality exactly when every
packet's protocol is 6 or 17, and each counter is monotone across every
single update. -/
theorem aggregate_counters (ps : List Nat) :
    (ps.foldl record_packet initStats).total_packets = ps.length ∧
    (ps.foldl record_packet initStats).tcp_packets +
        (ps.foldl record_packet initStats).udp_packets ≤
      (ps.foldl record_packet initStats).total_packets ∧
    ((ps.foldl record_packet initStats).tcp_packets +
        (ps.foldl record_packet initStats).udp_packets =
      (ps.foldl record_packet initStats).total_packets ↔ ∀ p ∈ ps, p = 6 ∨ p = 17) ∧
    ∀ (t : Stats) (q : Nat),
      t.total_packets ≤ (record_packet t q).total_packets ∧
      t.tcp_packets ≤ (record_packet t q).tcp_packets ∧
      t.udp_packets ≤ (record_packet t q).udp_packets := by
  have hf := foldl_record_stats ps initStats
  have htot : (ps.foldl record_packet initStats).total_packets = ps.length := by
    rw [hf.1]; simp [initStats]
  have hsum : (ps.foldl record_packet initStats).tcp_packets +
      (ps.foldl record_packet initStats).udp_packets =
      ps.countP (fun p => decide (p = 6 ∨ p = 17)) := by
    rw [hf.2.1]; simp [initStats]
  refine ⟨htot, ?_, ?_, ?_⟩
  · rw [htot, hsum]
    exact List.countP_le_length _
  · rw [htot, hsum]
    exact List.countP_eq_length.trans (by simp)
  · intro t q
    have hr := record_packet_fields t q
    exact ⟨by omega, hr.2.2.2.1, hr.2.2.2.2⟩

/-- Claim C10: finalizing an absent sink file yields the empty JSON array,
and finalizing a file of K valid newline-delimited records (each nonempty
after trimming and decoding successfully) yields exactly those K records in
their original order. -/
theorem finalize_ok (decode : String → Option LogEntry)
    (lines : List String) (entries : List LogEntry)
    (h : List.Forall₂
      (fun l e => strTrim l ≠ "" ∧ decode (strTrim l) = some e) lines entries) :
    finalize_alerts_json decode none = [] ∧
    finalize_alerts_json decode (some lines) = entries ∧
    lines.length = entries.length := by
  refine ⟨rfl, ?_, h.length_eq⟩
  induction h with
  | nil => rfl
  | cons hpair hrest ih =>
      obtain ⟨hne, hdec⟩ := hpair
      simp only [finalize_alerts_json, List.filterMap_cons] at ih ⊢
      rw [if_neg hne, hdec, ih]

/-- Witness for C10: the concrete decoder `decode0` on the two-line file
`["A", " B "]` recovers `[entry0, entry1]` in order, and the absent file
yields the empty array. -/
theorem finalize_ok_witness :
    finalize_alerts_json decode0 none = [] ∧
    finalize_alerts_json decode0 (some ["A", " B "]) = [entry0, entry1] ∧
    (["A", " B "] : List String).length = ([entry0, entry1] : List LogEntry).length :=
  finalize_ok decode0 ["A", " B "] [entry0, entry1]
    (List.Forall₂.cons ⟨by decide, by decide⟩
      (List.Forall₂.cons ⟨by decide, by decide⟩ List.Forall₂.nil))

/-- Claim C8: classifying a constructed well-formed IPv4 frame recovers the
source IP placed at bytes 26–29, the destination IP placed at bytes 30–33,
the protocol byte placed at byte 23, and the big-endian ports, byte-exactly;
and the protocol byte is labelled "TCP" for 6, "UDP" for 17, and "Other"
otherwise. -/
theorem classify_round_trip (src dst : Ipv4Addr) (proto shi slo dhi dlo : Nat)
    (hsrc : src.a < 256 ∧ src.b < 256 ∧ src.c < 256 ∧ src.d < 256)
    (hdst : dst.a < 256 ∧ dst.b < 256 ∧ dst.c < 256 ∧ dst.d < 256)
    (_hproto : proto < 256)
    (_hports : shi < 256 ∧ slo < 256 ∧ dhi < 256 ∧ dlo < 256) :
    classify (mkFrame src dst proto shi slo dhi dlo) =
      .flow ⟨src, dst, shi * 256 + slo, dhi * 256 + dlo, proto⟩ ∧
    proto_str 6 = "TCP" ∧
    proto_str 17 = "UDP" ∧
    (proto ≠ 6 → proto ≠ 17 → proto_str proto = "Other") := by
  refine ⟨?_, rfl, rfl, fun h6 h17 => ?_⟩
  · cases src
    cases dst
    have hand : (69 : Nat) &&& 15 = 5 := rfl
    simp [classify, mkFrame, hand]
  · unfold proto_str
    rw [if_neg h6, if_neg h17]

/-- Witness for C8 at concrete header fields. -/
theorem classify_round_trip_witness :
    classify (mkFrame ip0 ip1 7 0x12 0x34 0x56 0x78) =
      .flow ⟨ip0, ip1, 0x12 * 256 + 0x34, 0x56 * 256 + 0x78, 7⟩ ∧
    proto_str 6 = "TCP" ∧
    proto_str 17 = "UDP" ∧
    ((7 : Nat) ≠ 6 → (7 : Nat) ≠ 17 → proto_str 7 = "Other") :=
  classify_round_trip ip0 ip1 7 0x12 0x34 0x56 0x78
    (by decide) (by decide) (by decide) (by decide)

theorem analyze_step_fresh (hits : IpMap) (now : Nat) (src dst : Ipv4Addr)
    (sp dp proto sz : Nat) (hl : lookupIp hits src = none) :
    (analyze_packet hits now src dst sp dp proto sz).1 = insertIp hits src ⟨1, now⟩ ∧
    floodCount (analyze_packet hits now src dst sp dp proto sz).2 = 0 := by
  unfold analyze_packet
  dsimp only
  rw [hl]
  dsimp only [Option.getD_none]
  rw [if_neg (show ¬ (now - now > 10) by omega),
      if_neg (show ¬ ((0 : Nat) + 1 > 50) by omega)]
  exact ⟨rfl, floodCount_suspAlerts _ _ _ _ _ _⟩

theorem analyze_step_in_window (hits : IpMap) (now : Nat) (src dst : Ipv4Addr)
    (sp dp proto sz : Nat) (c t0 : Nat)
    (hl : lookupIp hits src = some ⟨c, t0⟩)
    (hw : now - t0 ≤ 10) (hc : c + 1 ≤ 50) :
    (analyze_packet hits now src dst sp dp proto sz).1 = insertIp hits src ⟨c + 1, t0⟩ ∧
    floodCount (analyze_packet hits now src dst sp dp proto sz).2 = 0 := by
  unfold analyze_packet
  dsimp only
  rw [hl]
  dsimp only [Option.getD_some]
  rw [if_neg (show ¬ (now - t0 > 10) by omega),
      if_neg (show ¬ (c + 1 > 50) by omega)]
  exact ⟨rfl, floodCount_suspAlerts _ _ _ _ _ _⟩

theorem analyze_step_flood (hits : IpMap) (now : Nat) (src dst : Ipv4Addr)
    (sp dp proto sz : Nat) (c t0 : Nat)
    (hl : lookupIp hits src = some ⟨c, t0⟩)
    (hw : now - t0 ≤ 10) (hc : c + 1 > 50) :
    (analyze_packet hits now src dst sp dp proto sz).1 = insertIp hits src ⟨0, now⟩ ∧
    floodCount (analyze_packet hits now src dst sp dp proto sz).2 = 1 := by
  unfold analyze_packet
  dsimp only
  rw [hl]
  dsimp only [Option.getD_some]
  rw [if_neg (show ¬ (now - t0 > 10) by omega), if_pos hc]
  refine ⟨rfl, ?_⟩
  rw [floodCount_append, floodCount_suspAlerts]
  simp [floodCount]

theorem runPackets_cons (hits : IpMap) (p : PacketIn) (rest : List PacketIn) :
    runPackets hits (p :: rest) =
      ((runPackets (analyze_packet hits p.now p.src p.dst p.sport p.dport p.proto p.size).1 rest).1,
       (analyze_packet hits p.now p.src p.dst p.sport p.dport p.proto p.size).2 ++
         (runPackets (analyze_packet hits p.now p.src p.dst p.sport p.dport p.proto p.size).1 rest).2) :=
  rfl

theorem runPackets_append (hits : IpMap) (xs ys : List PacketIn) :
    runPackets hits (xs ++ ys) =
      ((runPackets (runPackets hits xs).1 ys).1,
       (runPackets hits xs).2 ++ (runPackets (runPackets hits xs).1 ys).2) := by
  induction xs generalizing hits with
  | nil => simp [runPackets]
  | cons p rest ih =>
      simp only [List.cons_append, runPackets_cons, ih, List.append_assoc]

theorem runPackets_in_window (ps : List PacketIn) : ∀ (hits : IpMap) (c : Nat)
    (s : Ipv4Addr) (t0 : Nat),
    (∀ p ∈ ps, p.src = s) → (∀ p ∈ ps, p.now - t0 ≤ 10) →
    lookupIp hits s = some ⟨c, t0⟩ → c + ps.length ≤ 50 →
    lookupIp (runPackets hits ps).1 s = some ⟨c + ps.length, t0⟩ ∧
    floodCount (runPackets hits ps).2 = 0 := by
  induction ps with
  | nil =>
      intro hits c s t0 _ _ hl _
      simpa [runPackets, floodCount] using hl
  | cons p rest ih =>
      intro hits c s t0 hsrc htime hl hc
      have hps : p.src = s := hsrc p (List.mem_cons_self _ _)
      have hstep := analyze_step_in_window hits p.now p.src p.dst p.sport p.dport
        p.proto p.size c t0 (hps ▸ hl) (htime p (List.mem_cons_self _ _))
        (by simp only [List.length_cons] at hc; omega)
      have hlook : lookupIp (analyze_packet hits p.now p.src p.dst p.sport p.dport
          p.proto p.size).1 s = some ⟨c + 1, t0⟩ := by
        rw [hstep.1, hps]
        exact lookupIp_insertIp_self _ _ _
      have hrest := ih (analyze_packet hits p.now p.src p.dst p.sport p.dport
          p.proto p.size).1 (c + 1) s t0
        (fun q hq => hsrc q (List.mem_cons_of_mem _ hq))
        (fun q hq => htime q (List.mem_cons_of_mem _ hq))
        hlook
        (by simp only [List.length_cons] at hc; omega)
      rw [runPackets_cons]
      refine ⟨?_, ?_⟩
      · have hlen : c + (p :: rest).length = (c + 1) + rest.length := by
          simp [List.length_cons]; omega
        rw [hlen]
        exact hrest.1
      · rw [floodCount_append, hstep.2, hrest.2]

theorem mem_replicated_run {c p : PacketIn} (n : Nat)
    (hp : p ∈ (c :: List.replicate n c) ++ [c]) : p = c := by
  rcases List.mem_append.1 hp with h | h
  · rcases List.mem_cons.1 h with h | h
    · exact h
    · exact List.eq_of_mem_replicate h
  · exact List.mem_singleton.1 h

/-- Claim C3: a sequence of 51 packets from one source IP, all within 10
seconds of the first packet's arrival (which starts the window), yields
exactly one "Port scan or flooding detected" alert, none of it during the
first 50 packets, and leaves the source's record reset to count 0 with the
window restarted at the 51st packet's time. -/
theorem flood_alert_on_51st (p0 plast : PacketIn) (mid : List PacketIn)
    (s : Ipv4Addr) (m : IpMap)
    (hmid : mid.length = 49)
    (hsrc : ∀ p ∈ p0 :: mid ++ [plast], p.src = s)
    (htime : ∀ p ∈ p0 :: mid ++ [plast], p.now - p0.now ≤ 10)
    (hm : lookupIp m s = none) :
    floodCount (runPackets m (p0 :: mid ++ [plast])).2 = 1 ∧
    floodCount (runPackets m (p0 :: mid)).2 = 0 ∧
    lookupIp (runPackets m (p0 :: mid ++ [plast])).1 s = some ⟨0, plast.now⟩ := by
  have hp0 : p0.src = s := hsrc p0 (List.mem_cons_self _ _)
  have hmidsrc : ∀ p ∈ mid, p.src = s := fun p hp =>
    hsrc p (List.mem_cons_of_mem _ (List.mem_append_left _ hp))
  have hpl : plast.src = s := hsrc plast
    (List.mem_cons_of_mem _ (List.mem_append_right _ (List.mem_singleton_self _)))
  have hmidt : ∀ p ∈ mid, p.now - p0.now ≤ 10 := fun p hp =>
    htime p (List.mem_cons_of_mem _ (List.mem_append_left _ hp))
  have hplt : plast.now - p0.now ≤ 10 := htime plast
    (List.mem_cons_of_mem _ (List.mem_append_right _ (List.mem_singleton_self _)))
  obtain ⟨hmap1, hfl1⟩ := analyze_step_fresh m p0.now p0.src p0.dst p0.sport
    p0.dport p0.proto p0.size (hp0 ▸ hm)
  have hlook1 : lookupIp (analyze_packet m p0.now p0.src p0.dst p0.sport p0.dport
      p0.proto p0.size).1 s = some ⟨1, p0.now⟩ := by
    rw [hmap1, hp0]
    exact lookupIp_insertIp_self _ _ _
  obtain ⟨hlook50, hflmid⟩ := runPackets_in_window mid
    (analyze_packet m p0.now p0.src p0.dst p0.sport p0.dport p0.proto p0.size).1
    1 s p0.now hmidsrc hmidt hlook1 (by omega)
  rw [hmid] at hlook50
  obtain ⟨hmaplast, hfllast⟩ := analyze_step_flood
    (runPackets (analyze_packet m p0.now p0.src p0.dst p0.sport p0.dport
      p0.proto p0.size).1 mid).1
    plast.now plast.src plast.dst plast.sport plast.dport plast.proto plast.size
    50 p0.now (hpl ▸ hlook50) hplt (by omega)
  have hmid2 : floodCount (runPackets m (p0 :: mid)).2 = 0 := by
    rw [runPackets_cons, floodCount_append, hfl1, hflmid]
  have hmapmid : (runPackets m (p0 :: mid)).1 =
      (runPackets (analyze_packet m p0.now p0.src p0.dst p0.sport p0.dport
        p0.proto p0.size).1 mid).1 := by
    rw [runPackets_cons]
  refine ⟨?_, hmid2, ?_⟩
  · rw [runPackets_append, floodCount_append, hmid2, hmapmid,
      runPackets_cons, floodCount_append, hfllast]
    rfl
  · rw [runPackets_append, hmapmid, runPackets_cons]
    dsimp only
    rw [show runPackets (analyze_packet (runPackets (analyze_packet m p0.now
        p0.src p0.dst p0.sport p0.dport p0.proto p0.size).1 mid).1
        plast.now plast.src plast.dst plast.sport plast.dport plast.proto
        plast.size).1 [] =
      ((analyze_packet (runPackets (analyze_packet m p0.now p0.src p0.dst
        p0.sport p0.dport p0.proto p0.size).1 mid).1
        plast.now plast.src plast.dst plast.sport plast.dport plast.proto
        plast.size).1, []) from rfl]
    dsimp only
    rw [hmaplast, hpl]
    exact lookupIp_insertIp_self _ _ _

/-- Witness for C3: 51 concrete packets from `ip0` at time 0 against an
empty map produce exactly one flood alert, none within the first 50, and
reset the record to count 0. -/
theorem flood_alert_on_51st_witness :
    floodCount (runPackets []
      (⟨ip0, ip1, 1, 80, 6, 60, 0⟩ ::
        List.replicate 49 (⟨ip0, ip1, 1, 80, 6, 60, 0⟩ : PacketIn) ++
        [⟨ip0, ip1, 1, 80, 6, 60, 0⟩])).2 = 1 ∧
    floodCount (runPackets []
      (⟨ip0, ip1, 1, 80, 6, 60, 0⟩ ::
        List.replicate 49 (⟨ip0, ip1, 1, 80, 6, 60, 0⟩ : PacketIn))).2 = 0 ∧
    lookupIp (runPackets []
      (⟨ip0, ip1, 1, 80, 6, 60, 0⟩ ::
        List.replicate 49 (⟨ip0, ip1, 1, 80, 6, 60, 0⟩ : PacketIn) ++
        [⟨ip0, ip1, 1, 80, 6, 60, 0⟩])).1 ip0 = some ⟨0, 0⟩ :=
  flood_alert_on_51st ⟨ip0, ip1, 1, 80, 6, 60, 0⟩ ⟨ip0, ip1, 1, 80, 6, 60, 0⟩
    (List.replicate 49 ⟨ip0, ip1, 1, 80, 6, 60, 0⟩) ip0 []
    (by simp)
    (fun p hp => by rw [mem_replicated_run 49 hp])
    (fun p hp => by rw [mem_replicated_run 49 hp]; decide)
    rfl

end CyberSentinel
